import Mathlib

set_option maxHeartbeats 1000000

namespace PlanarBuild

/-- An undirected edge of the map, stored as the ordered pair of its endpoint
vertex ids (source: struct edge in src/planar.cc lines 81-84 and
src/planar-fast.cc lines 43-46). -/
structure edge where
  v1 : Nat
  v2 : Nat
deriving DecidableEq, Repr

/-- Tentative counter for closed-face sizes used by the legality checks
(source: struct faceCounter, src/planar.cc lines 86-102 and
src/planar-fast.cc lines 48-64, with N_TRI = 1, N_SQ = 2, N_PENT = 5). -/
structure faceCounter where
  ntri : Nat
  nsq : Nat
  npent : Nat
deriving DecidableEq, Repr

/-- faceCounter::add: bump the counter for a face of the given size and report
whether the budget (1 triangle, 2 squares, 5 pentagons, any hexagons) is still
respected; sizes outside 3..6 are rejected. -/
def faceCounter.add (fc : faceCounter) (size : Nat) : Bool × faceCounter :=
  match size with
  | 3 => (fc.ntri + 1 ≤ 1, { fc with ntri := fc.ntri + 1 })
  | 4 => (fc.nsq + 1 ≤ 2, { fc with nsq := fc.nsq + 1 })
  | 5 => (fc.npent + 1 ≤ 5, { fc with npent := fc.npent + 1 })
  | 6 => (true, fc)
  | _ => (false, fc)

/-- The partial planar-map state (source: struct GraphState, src/planar.cc
lines 104-129 and src/planar-fast.cc lines 66-91).  Faces are lists of edge
indices; openfaces lists the face indices that are still open, in cyclic
order.  The extra field closedLog is a ghost instrumentation field recording
the size of every face passed to countFace during a move; no function's
control flow or any other field depends on it. -/
structure GraphState where
  numverts : Nat
  nsq : Nat
  npent : Nat
  nhex : Nat
  edges : List edge
  faces : List (List Nat)
  openfaces : List Nat
  medgadd : Nat
  chosenFace : Nat
  closedLog : List Nat
deriving DecidableEq, Repr

/-- The seed state built by the GraphState constructor (src/planar.cc lines
137-152, src/planar-fast.cc lines 99-114): 7 vertices, 8 edges, 7 faces of
which faces 2,3,4,5,6 are open. -/
def GraphState.init : GraphState :=
  { numverts := 7, nsq := 0, npent := 0, nhex := 1,
    edges := [⟨1,2⟩, ⟨2,3⟩, ⟨1,3⟩, ⟨3,4⟩, ⟨4,5⟩, ⟨5,6⟩, ⟨6,7⟩, ⟨7,1⟩],
    faces := [[0,1,2], [2,3,4,5,6,7], [7,0], [1,3], [4], [5], [6]],
    openfaces := [2,3,4,5,6],
    medgadd := 0, chosenFace := 0, closedLog := [] }

/-- GraphState::startpt (src/planar.cc lines 166-175): the first edge's first
endpoint; src/planar-fast.cc reads edges[faces[fF][0]].v1 inline. -/
def startpt (s : GraphState) (face : List Nat) : Nat :=
  (s.edges.getD (face.headD 0) ⟨0, 0⟩).v1

/-- GraphState::endpt (src/planar.cc lines 177-186): the last edge's second
endpoint; src/planar-fast.cc reads edges[faces[fF].back()].v2 inline. -/
def endpt (s : GraphState) (face : List Nat) : Nat :=
  (s.edges.getD (face.getLastD 0) ⟨0, 0⟩).v2

/-- GraphState::countFace (src/planar.cc lines 188-202, src/planar-fast.cc
lines 129-141): bump the closed square/pentagon/hexagon counter matching the
face's size.  On any other size src/planar.cc prints a diagnostic and
src/planar-fast.cc does nothing; no counter changes.  The ghost field
closedLog records the size seen by every call. -/
def countFace (s : GraphState) (face : List Nat) : GraphState :=
  let s' := { s with closedLog := s.closedLog ++ [face.length] }
  match face.length with
  | 4 => { s' with nsq := s'.nsq + 1 }
  | 5 => { s' with npent := s'.npent + 1 }
  | 6 => { s' with nhex := s'.nhex + 1 }
  | _ => s'

/-- The face list referenced by position i of the open-boundary sequence. -/
def faceOf (s : GraphState) (i : Nat) : List Nat :=
  s.faces.getD (s.openfaces.getD i 0) []

/-- GraphState::isValid (src/planar.cc lines 204-303, src/planar-fast.cc
lines 143-241): legality of move meth on the open face at cyclic position oF
of the open-boundary sequence. -/
def isValid (s : GraphState) (oF : Nat) (meth : Nat) : Bool :=
  let n := s.openfaces.length
  let pppoF := (oF + 2*n - 3) % n
  let ppoF := (oF + n - 2) % n
  let poF := (oF + n - 1) % n
  let noF := (oF + 1) % n
  let nnoF := (oF + 2) % n
  let nnnoF := (oF + 3) % n
  let pppF := faceOf s pppoF
  let prprF := faceOf s ppoF
  let prevF := faceOf s poF
  let F := faceOf s oF
  let nextF := faceOf s noF
  let nnF := faceOf s nnoF
  let nnnF := faceOf s nnnoF
  let facect : faceCounter := ⟨1, s.nsq, s.npent⟩
  match meth with
  | 1 =>
      if n > 2 && prevF.length + nextF.length > 4 then false
      else if n == 2 then
        let (ok, facect) := facect.add (nextF.length + 1)
        if !ok then false else (facect.add (F.length + 1)).1
      else (facect.add (F.length + 1)).1
  | 2 =>
      if prevF.length > 4 then false
      else if nextF.length > 4 then false
      else (facect.add (F.length + 2)).1
  | 3 =>
      if n < 4 || n == 5 then false
      else if nnF.length != 1 then false
      else
        let (ok, facect) := facect.add (nextF.length + 1)
        if !ok then false
        else if n > 4 && prevF.length + nnnF.length > 4 then false
        else if n == 4 then
          let (ok2, facect) := facect.add (prevF.length + 1)
          if !ok2 then false else (facect.add (F.length + 3)).1
        else (facect.add (F.length + 3)).1
  | 4 =>
      if n < 6 then false
      else if prprF.length != 1 then false
      else
        let (ok, facect) := facect.add (prevF.length + 1)
        if !ok then false
        else if n > 4 && pppF.length + nextF.length > 4 then false
        else if n == 4 then
          let (ok2, facect) := facect.add (nextF.length + 1)
          if !ok2 then false else (facect.add (F.length + 3)).1
        else (facect.add (F.length + 3)).1
  | 5 =>
      if prevF.length > 4 then false
      else if nextF.length > 4 then false
      else (facect.add (F.length + 3)).1
  | 6 =>
      if n < 4 || n == 5 then false
      else if nnF.length != 2 then false
      else
        let (ok, facect) := facect.add (nextF.length + 1)
        if !ok then false
        else if n > 4 && prevF.length + nnnF.length > 4 then false
        else if n == 4 then
          let (ok2, facect) := facect.add (prevF.length + 1)
          if !ok2 then false else (facect.add (F.length + 4)).1
        else (facect.add (F.length + 4)).1
  | 7 =>
      if n < 6 then false
      else if prprF.length != 2 then false
      else
        let (ok, facect) := facect.add (prevF.length + 1)
        if !ok then false
        else if n > 4 && pppF.length + nextF.length > 4 then false
        else if n == 4 then
          let (ok2, facect) := facect.add (nextF.length + 1)
          if !ok2 then false else (facect.add (F.length + 4)).1
        else (facect.add (F.length + 4)).1
  | 8 =>
      if n < 5 then false
      else if nnF.length != 1 then false
      else if prevF.length > 4 then false
      else if nnnF.length > 4 then false
      else
        let (ok, facect) := facect.add (nextF.length + 1)
        if !ok then false else (facect.add (F.length + 4)).1
  | 9 =>
      if n < 5 then false
      else if prprF.length != 1 then false
      else if nextF.length > 4 then false
      else if pppF.length > 4 then false
      else
        let (ok, facect) := facect.add (prevF.length + 1)
        if !ok then false else (facect.add (F.length + 4)).1
  | 10 =>
      if prevF.length > 4 then false
      else if nextF.length > 4 then false
      else (facect.add (F.length + 4)).1
  | _ => false

/-- The loop of GraphState::incMethod, with an explicit structural bound on
the number of iterations (the loop itself runs at most 11 - medgadd times
since every iteration increments medgadd). -/
def incMethodGo : Nat → GraphState → Bool × GraphState
  | 0, s => (false, s)
  | fuel + 1, s =>
    if s.medgadd ≤ 10 then
      let s' := { s with medgadd := s.medgadd + 1 }
      if isValid s' s'.chosenFace s'.medgadd then (true, s')
      else incMethodGo fuel s'
    else (false, s)

/-- GraphState::incMethod (src/planar.cc lines 309-315, src/planar-fast.cc
lines 247-253): repeatedly advance medgadd and stop at the first value for
which isValid accepts the chosen face, or report failure once medgadd has
passed NUM_METH = 10.  A bound of 11 iterations always suffices: each
iteration increments medgadd, and once medgadd exceeds 10 the loop exits
with false, which is also what the exhausted bound returns. -/
def incMethod (s : GraphState) : Bool × GraphState := incMethodGo 11 s

/-- faces[i].push_back(e). -/
def pushB (s : GraphState) (i e : Nat) : GraphState :=
  { s with faces := s.faces.modify (fun F => F ++ [e]) i }

/-- faces[i].push_front(e). -/
def pushF (s : GraphState) (i e : Nat) : GraphState :=
  { s with faces := s.faces.modify (fun F => e :: F) i }

/-- faces[i].insert(faces[i].end(), faces[j].begin(), faces[j].end()). -/
def absorb (s : GraphState) (i j : Nat) : GraphState :=
  { s with faces := s.faces.modify (fun F => F ++ s.faces.getD j []) i }

/-- edges.emplace_back(a, b). -/
def addE (s : GraphState) (a b : Nat) : GraphState :=
  { s with edges := s.edges ++ [⟨a, b⟩] }

/-- edges.size() - 1, the index of the most recently added edge. -/
def lastE (s : GraphState) : Nat := s.edges.length - 1

/-- openfaces.erase(openfaces.begin() + a, openfaces.begin() + b). -/
def eraseOpenRange (s : GraphState) (a b : Nat) : GraphState :=
  { s with openfaces := s.openfaces.take a ++ s.openfaces.drop b }

/-- openfaces.erase(openfaces.begin() + a). -/
def eraseOpenAt (s : GraphState) (a : Nat) : GraphState :=
  { s with openfaces := s.openfaces.eraseIdx a }

/-- Insert x into an already descending list, keeping it descending. -/
def insertDesc (x : Nat) : List Nat → List Nat
  | [] => [x]
  | y :: ys => if x ≥ y then x :: y :: ys else y :: insertDesc x ys

/-- std::sort(toerase.rbegin(), toerase.rend()): sort into descending order. -/
def sortDesc (l : List Nat) : List Nat := l.foldr insertDesc []

/-- The dead-slot removal loop closing GraphState::addEdges (src/planar.cc
lines 571-577, src/planar-fast.cc lines 496-502): for each index ef (visited
in the given order), first decrement every open-boundary reference greater
than ef, then erase face slot ef. -/
def eraseDead (s : GraphState) (toerase : List Nat) : GraphState :=
  toerase.foldl (fun t ef =>
    { t with openfaces := t.openfaces.map (fun of => if ef < of then of - 1 else of),
             faces := t.faces.eraseIdx ef }) s

/-- GraphState::addEdges (src/planar.cc lines 317-578, src/planar-fast.cc
lines 255-503): apply move meth to the open face at cyclic position oF. -/
def addEdges (s : GraphState) (oF meth : Nat) : GraphState :=
  let n := s.openfaces.length
  let pppoF := (oF + 2*n - 3) % n
  let ppoF := (oF + n - 2) % n
  let poF := (oF + n - 1) % n
  let noF := (oF + 1) % n
  let nnoF := (oF + 2) % n
  let nnnoF := (oF + 3) % n
  let pppF := s.openfaces.getD pppoF 0
  let ppF := s.openfaces.getD ppoF 0
  let pF := s.openfaces.getD poF 0
  let fF := s.openfaces.getD oF 0
  let nF := s.openfaces.getD noF 0
  let nnF := s.openfaces.getD nnoF 0
  let nnnF := s.openfaces.getD nnnoF 0
  let startF := startpt s (s.faces.getD fF [])
  let endptF := endpt s (s.faces.getD fF [])
  let (s, toerase) : GraphState × List Nat :=
    match meth with
    | 1 =>
        let s := addE s startF endptF
        let s := pushB s fF (lastE s)
        let s := pushB s pF (lastE s)
        let s :=
          if noF > oF then eraseOpenRange s oF (oF + 2)
          else eraseOpenAt (eraseOpenAt s oF) noF
        if n == 2 then (countFace s (s.faces.getD pF []), [])
        else (absorb s pF nF, [nF])
    | 2 =>
        let s := { s with numverts := s.numverts + 1 }
        let s := addE s startF s.numverts
        let s := pushB s pF (lastE s)
        let s := addE s s.numverts endptF
        let s := pushB s fF (lastE s)
        let s := pushB s fF (lastE s - 1)
        let s := pushF s nF (lastE s)
        (eraseOpenAt s oF, [])
    | 3 | 6 =>
        let s := addE s endptF (endpt s (s.faces.getD nF []))
        let s := pushB s fF (lastE s)
        let s := pushB s nF (lastE s)
        let s := countFace s (s.faces.getD nF [])
        let s := absorb s fF nnF
        let s := addE s startF (endpt s (s.faces.getD nnF []))
        let s := pushB s fF (lastE s)
        let s := pushB s pF (lastE s)
        let s :=
          if nnnoF > oF then eraseOpenRange s oF (oF + 4)
          else if nnoF > oF then eraseOpenAt (eraseOpenRange s oF (oF + 3)) nnnoF
          else if noF > oF then
            eraseOpenRange (eraseOpenRange s oF (oF + 2)) nnoF (nnoF + 2)
          else eraseOpenRange (eraseOpenAt s oF) noF (noF + 3)
        if n == 4 then (countFace s (s.faces.getD pF []), [nnF])
        else (absorb s pF nnnF, [nnF, nnnF])
    | 4 | 7 =>
        let s := addE s (startpt s (s.faces.getD pF [])) startF
        let s := pushB s fF (lastE s)
        let s := pushB s pF (lastE s)
        let s := countFace s (s.faces.getD pF [])
        let s := absorb s fF ppF
        let s := addE s (startpt s (s.faces.getD ppF [])) endptF
        let s := pushB s fF (lastE s)
        let s := pushB s pppF (lastE s)
        let s :=
          if ppoF < noF then eraseOpenRange s ppoF (noF + 1)
          else if poF < noF then eraseOpenRange (eraseOpenAt s ppoF) poF (noF + 1)
          else if oF < noF then
            eraseOpenRange (eraseOpenRange s ppoF (poF + 1)) oF (noF + 1)
          else eraseOpenAt (eraseOpenRange s ppoF (oF + 1)) noF
        if n == 4 then (countFace s (s.faces.getD nF []), [ppF])
        else (absorb s pppF nF, [ppF, nF])
    | 5 =>
        let s := { s with numverts := s.numverts + 1 }
        let s := addE s startF s.numverts
        let s := pushB s pF (lastE s)
        let s := { s with numverts := s.numverts + 1 }
        let s := addE s (s.numverts - 1) s.numverts
        let s := { s with faces := s.faces ++ [[lastE s]] }
        let s := { s with openfaces := s.openfaces.set oF (s.faces.length - 1) }
        let s := addE s s.numverts endptF
        let s := pushB s fF (lastE s)
        let s := pushB s fF (lastE s - 1)
        let s := pushB s fF (lastE s - 2)
        let s := pushF s nF (lastE s)
        (s, [])
    | 8 =>
        let s := addE s endptF (endpt s (s.faces.getD nF []))
        let s := pushB s fF (lastE s)
        let s := pushB s nF (lastE s)
        let s := pushB s fF ((s.faces.getD nnF []).headD 0)
        let s := { s with numverts := s.numverts + 1 }
        let s := addE s s.numverts (endpt s (s.faces.getD nnF []))
        let s := pushB s fF (lastE s)
        let s := pushF s nnnF (lastE s)
        let s := addE s startF s.numverts
        let s := pushB s fF (lastE s)
        let s := pushB s pF (lastE s)
        let s :=
          if nnoF > oF then eraseOpenRange s oF (oF + 3)
          else if noF > oF then eraseOpenAt (eraseOpenRange s oF (oF + 2)) nnoF
          else eraseOpenRange (eraseOpenAt s oF) noF (noF + 2)
        (countFace s (s.faces.getD nF []), [nnF])
    | 9 =>
        let s := addE s (startpt s (s.faces.getD pF [])) startF
        let s := pushB s fF (lastE s)
        let s := pushB s pF (lastE s)
        let s := pushB s fF ((s.faces.getD ppF []).headD 0)
        let s := { s with numverts := s.numverts + 1 }
        let s := addE s (startpt s (s.faces.getD ppF [])) s.numverts
        let s := pushB s fF (lastE s)
        let s := pushB s pppF (lastE s)
        let s := addE s s.numverts endptF
        let s := pushB s fF (lastE s)
        let s := pushF s nF (lastE s)
        let s :=
          if ppoF < oF then eraseOpenRange s ppoF (oF + 1)
          else if poF < oF then eraseOpenRange (eraseOpenAt s ppoF) poF (oF + 1)
          else eraseOpenAt (eraseOpenRange s ppoF (poF + 1)) oF
        (countFace s (s.faces.getD pF []), [ppF])
    | 10 =>
        let s := { s with numverts := s.numverts + 1 }
        let s := addE s startF s.numverts
        let s := pushB s fF (lastE s)
        let s := pushB s pF (lastE s)
        let s := { s with numverts := s.numverts + 1 }
        let s := addE s (s.numverts - 1) s.numverts
        let s := pushB s fF (lastE s)
        let s := { s with faces := s.faces ++ [[lastE s]] }
        let s := { s with openfaces := s.openfaces.insertIdx oF (s.faces.length - 1) }
        let s := { s with numverts := s.numverts + 1 }
        let s := addE s (s.numverts - 1) s.numverts
        let s := pushB s fF (lastE s)
        let s := { s with faces := s.faces ++ [[lastE s]] }
        let s := { s with openfaces := s.openfaces.set (oF + 1) (s.faces.length - 1) }
        let s := addE s s.numverts endptF
        let s := pushB s fF (lastE s)
        let s := pushF s nF (lastE s)
        (s, [])
    | _ => (s, [])
  let s := countFace s (s.faces.getD fF [])
  eraseDead s (sortDesc toerase)

/-- The scan inside GraphState::chooseFace: running index of a longest open
face, starting from candidate cf at position i, with a structural bound on
the remaining number of loop iterations. -/
def chooseFaceGo (s : GraphState) : Nat → Nat → Nat → Nat
  | 0, cf, _ => cf
  | fuel + 1, cf, i =>
    if i < s.openfaces.length then
      chooseFaceGo s fuel (if (faceOf s i).length > (faceOf s cf).length then i else cf) (i + 1)
    else cf

/-- GraphState::chooseFace (src/planar.cc lines 584-590, src/planar-fast.cc
lines 509-515): select the cyclic position of a longest open face (first one
wins ties) and reset the move cursor medgadd to 0.  The loop runs for
i = 1 .. openfaces.size() - 1, so a bound of openfaces.size() iterations
suffices. -/
def chooseFace (s : GraphState) : GraphState :=
  { s with chosenFace := chooseFaceGo s s.openfaces.length 0 1, medgadd := 0 }

/-- The facesoflen histogram of GraphState::sizecheck after the subtraction
of open faces: number of closed faces of length k, as built by the two loops
(src/planar.cc lines 593-603, src/planar-fast.cc lines 518-527). -/
def facesoflen (s : GraphState) (k : Nat) : Int :=
  (s.faces.countP (fun F => F.length == k) : Int)
    - (s.openfaces.countP (fun o => (s.faces.getD o []).length == k) : Int)

/-- GraphState::sizecheck (src/planar.cc lines 592-613, src/planar-fast.cc
lines 517-534): the branch-pruning size test. -/
def sizecheck (s : GraphState) : Bool :=
  s.faces.all (fun F => F.length ≤ 6) &&
  s.openfaces.all (fun o => (s.faces.getD o []).length ≤ 5) &&
  (facesoflen s 0 == 0) && (facesoflen s 1 == 0) && (facesoflen s 2 == 0) &&
  (facesoflen s 3 ≤ 1) && (facesoflen s 4 ≤ 2) && (facesoflen s 5 ≤ 5)

/-- Degree of vertex v: how often v occurs as an edge endpoint (the vertdegs
array of src/planar.cc lines 626-630). -/
def vertdeg (s : GraphState) (v : Nat) : Nat :=
  s.edges.countP (fun e => e.v1 == v) + s.edges.countP (fun e => e.v2 == v)

namespace Planar

/-- GraphState::sizefinal of src/planar.cc (lines 615-642): every face length
in 3..6, every vertex 1..numverts of degree exactly 3, and exactly 1 triangle,
2 squares, 5 pentagons. -/
def sizefinal (s : GraphState) : Bool :=
  s.faces.all (fun F => 3 ≤ F.length && F.length ≤ 6) &&
  ((List.range s.numverts).all (fun i => vertdeg s (i + 1) == 3)) &&
  (s.faces.countP (fun F => F.length == 3) == 1) &&
  (s.faces.countP (fun F => F.length == 4) == 2) &&
  (s.faces.countP (fun F => F.length == 5) == 5)

end Planar

namespace PlanarFast

/-- GraphState::sizefinal of src/planar-fast.cc (lines 536-547): every face
length in 3..6 and exactly 1 triangle, 2 squares, 5 pentagons; unlike
src/planar.cc there is no vertex-degree test. -/
def sizefinal (s : GraphState) : Bool :=
  s.faces.all (fun F => 3 ≤ F.length && F.length ≤ 6) &&
  (s.faces.countP (fun F => F.length == 3) == 1) &&
  (s.faces.countP (fun F => F.length == 4) == 2) &&
  (s.faces.countP (fun F => F.length == 5) == 5)

end PlanarFast

-- driver pieces

/-- The shared post-move pruning decision of both drivers for a state whose
open boundary is non-empty (src/planar.cc lines 787-803, src/planar-fast.cc
lines 618-629): backtrack when the stack is deeper than MAX_FACES - 4, when a
single open face remains, or when sizecheck fails. -/
def postMove (maxFaces stackSize : Nat) (G : GraphState) : Bool :=
  if maxFaces - 4 < stackSize then true
  else if G.openfaces.length == 1 then true
  else if !sizecheck G then true
  else false

/-- The extra pop heuristic only present in src/planar.cc main (lines
760-766): faces[2] grew past 4, face index 3 is no longer open, and faces[3]
is shorter than faces[2]. -/
def extraRule (G : GraphState) : Bool :=
  4 < (G.faces.getD 2 []).length && !(G.openfaces.contains 3) &&
  (G.faces.getD 3 []).length < (G.faces.getD 2 []).length

/-- Every open-boundary entry is an in-range face index. -/
def refsInRange (s : GraphState) : Bool :=
  s.openfaces.all (fun o => o < s.faces.length)

/-- Number of closed (not open) faces of length 3. -/
def closedTriCount (s : GraphState) : Nat :=
  ((List.range s.faces.length).filter
    (fun i => ((s.faces.getD i []).length == 3) && !(s.openfaces.contains i))).length

/-- Every size recorded by countFace during the last move is 4, 5 or 6. -/
def closedSizesOK (s : GraphState) : Bool :=
  s.closedLog.all (fun z => 4 ≤ z && z ≤ 6)

/-- V - E + F = 2 (stated over Nat as V + F = E + 2) together with 2E = 3V. -/
def eulerFormula (s : GraphState) : Bool :=
  (s.numverts + s.faces.length == s.edges.length + 2) &&
  (2 * s.edges.length == 3 * s.numverts)

namespace PlanarFast

/-- Result of a whole search run of src/planar-fast.cc main: the
per-hexagon-count success tallies (vector nsuccess of size MAX_FACES - 6)
and the registry of canonical encodings of the distinct solutions found
(set canonslns, kept here as the list of encodings in insertion order). -/
structure RunResult where
  nsuccess : List Nat
  canonslns : List (List Nat)
deriving DecidableEq, Repr

/-- The full backtracking driver of src/planar-fast.cc main (lines 582-632),
parametrized by the canonical-labeling oracle.  Modelled from the spec: the
oracle (nauty's sparsenauty, called by GraphState::canongraph) is external
to this repository and is taken as an arbitrary pure function canon from a
completed state to its canonical encoding.  On every completed candidate
that passes sizefinal and the face bound, the encoding is looked up in the
registry; if absent it is inserted and the tally for the candidate's
hexagon count is incremented.  Fuel-bounded; none only on fuel exhaustion. -/
def run (canon : GraphState → List Nat) (maxFaces : Nat) :
    Nat → List GraphState → GraphState → Bool → RunResult → Option RunResult
  | 0, _, _, _, _ => none
  | fuel + 1, stack, G0, pop, res =>
    if pop then
      match stack with
      | [] => some res
      | G1 :: rest => run canon maxFaces fuel rest G1 false res
    else
      let r := incMethod G0
      if !r.1 then run canon maxFaces fuel stack r.2 true res
      else
        let G1 := r.2
        let stack1 := G1 :: stack
        let G2 := addEdges { G1 with closedLog := [] } G1.chosenFace G1.medgadd
        if G2.openfaces.isEmpty then
          let res1 :=
            if sizefinal G2 && G2.faces.length ≤ maxFaces then
              let enc := canon G2
              if res.canonslns.contains enc then res
              else { nsuccess := res.nsuccess.modify (fun c => c + 1) G2.nhex,
                     canonslns := res.canonslns ++ [enc] }
            else res
          run canon maxFaces fuel stack1 G2 true res1
        else if postMove maxFaces stack1.length G2 then
          run canon maxFaces fuel stack1 G2 true res
        else
          run canon maxFaces fuel stack1 (chooseFace G2) false res

/-- The starting run state: empty registry, all-zero tallies of size
MAX_FACES - 6 (src/planar-fast.cc lines 583-586). -/
def RunResult.start (maxFaces : Nat) : RunResult :=
  ⟨List.replicate (maxFaces - 6) 0, []⟩

end PlanarFast

namespace Planar

/-- Result of a whole search run of src/planar.cc main: the scalar success
count nsuccess and the registry of canonical encodings (set canonslns). -/
structure RunResult where
  nsuccess : Nat
  canonslns : List (List Nat)
deriving DecidableEq, Repr

/-- The full backtracking driver of src/planar.cc main (lines 719-807),
parametrized by the canonical-labeling oracle exactly as
PlanarFast.run.  Differences from src/planar-fast.cc faithfully kept: the
extra pop heuristic runs right after every move (before the empty-boundary
test), the face bound is tested before sizefinal, this file's sizefinal
(with its cubic check) is used, and nsuccess is a scalar. -/
def run (canon : GraphState → List Nat) (maxFaces : Nat) :
    Nat → List GraphState → GraphState → Bool → RunResult → Option RunResult
  | 0, _, _, _, _ => none
  | fuel + 1, stack, G0, pop, res =>
    if pop then
      match stack with
      | [] => some res
      | G1 :: rest => run canon maxFaces fuel rest G1 false res
    else
      let r := incMethod G0
      if !r.1 then run canon maxFaces fuel stack r.2 true res
      else
        let G1 := r.2
        let stack1 := G1 :: stack
        let G2 := addEdges { G1 with closedLog := [] } G1.chosenFace G1.medgadd
        if extraRule G2 then run canon maxFaces fuel stack1 G2 true res
        else if G2.openfaces.isEmpty then
          let res1 :=
            if G2.faces.length ≤ maxFaces && sizefinal G2 then
              let enc := canon G2
              if res.canonslns.contains enc then res
              else { nsuccess := res.nsuccess + 1, canonslns := res.canonslns ++ [enc] }
            else res
          run canon maxFaces fuel stack1 G2 true res1
        else if postMove maxFaces stack1.length G2 then
          run canon maxFaces fuel stack1 G2 true res
        else
          run canon maxFaces fuel stack1 (chooseFace G2) false res

/-- The starting run state of src/planar.cc main (lines 722-725). -/
def RunResult.start : RunResult := ⟨0, []⟩

end Planar

/-- The states the search engine can reach: the seed, plus the result of
applying any legal move to a reached state whose open boundary has at least
two entries and whose selected position is in range.  Every state the
drivers construct by GraphState::addEdges arises this way: addEdges is
invoked only on the chosen face of a state with at least two open faces and
only with a move id that incMethod found legal. -/
inductive Reached : GraphState → Prop
  | seed : Reached GraphState.init
  | step (s : GraphState) (oF meth : Nat) : Reached s → 2 ≤ s.openfaces.length →
      oF < s.openfaces.length → isValid s oF meth = true → Reached (addEdges s oF meth)

-- ===== Claims =====

/-- A state with empty open boundary whose face profile matches the target
(lengths 3,4,4,5,5,5,5,5) but whose graph is not cubic: its single edge
gives vertices 1 and 2 degree 1. -/
def nonCubicFinal : GraphState :=
  { numverts := 2, nsq := 2, npent := 5, nhex := 0,
    edges := [⟨1, 2⟩],
    faces := [[0,0,0], [0,0,0,0], [0,0,0,0], [0,0,0,0,0], [0,0,0,0,0],
              [0,0,0,0,0], [0,0,0,0,0], [0,0,0,0,0]],
    openfaces := [], medgadd := 0, chosenFace := 0, closedLog := [] }

/-- C1 counterexample: the completion test of src/planar-fast.cc returns
true on a state with empty open boundary in which vertex 1 has degree 1,
not 3: only src/planar.cc's sizefinal checks vertex degrees. -/
theorem c1_cex :
    PlanarFast.sizefinal nonCubicFinal = true ∧
    nonCubicFinal.openfaces = [] ∧
    1 ≤ nonCubicFinal.numverts ∧
    ¬ (vertdeg nonCubicFinal 1 = 3) := by decide

/-- C1 (amended): src/planar.cc's sizefinal returns true exactly when every
face length is in 3..6, every vertex has degree exactly 3, and the closed
counts match the target profile 1/2/5 (in particular it returns false
whenever some vertex degree differs from 3), while src/planar-fast.cc's
sizefinal tests only the face-length and count conditions and performs no
vertex-degree check. -/
theorem c1_theorem :
    (∀ s : GraphState, Planar.sizefinal s = true ↔
      ((∀ F ∈ s.faces, 3 ≤ F.length ∧ F.length ≤ 6) ∧
       (∀ v : Nat, 1 ≤ v → v ≤ s.numverts → vertdeg s v = 3) ∧
       s.faces.countP (fun F => F.length == 3) = 1 ∧
       s.faces.countP (fun F => F.length == 4) = 2 ∧
       s.faces.countP (fun F => F.length == 5) = 5)) ∧
    (∀ s : GraphState, PlanarFast.sizefinal s = true ↔
      ((∀ F ∈ s.faces, 3 ≤ F.length ∧ F.length ≤ 6) ∧
       s.faces.countP (fun F => F.length == 3) = 1 ∧
       s.faces.countP (fun F => F.length == 4) = 2 ∧
       s.faces.countP (fun F => F.length == 5) = 5)) := by
  constructor
  · intro s
    simp only [Planar.sizefinal, Bool.and_eq_true, List.all_eq_true, beq_iff_eq,
      decide_eq_true_eq, List.mem_range]
    constructor
    · rintro ⟨⟨⟨⟨hlen, hdeg⟩, h3⟩, h4⟩, h5⟩
      refine ⟨fun F hF => hlen F hF, fun v h1 h2 => ?_, h3, h4, h5⟩
      have := hdeg (v - 1) (by omega)
      rwa [Nat.sub_add_cancel h1] at this
    · rintro ⟨hlen, hdeg, h3, h4, h5⟩
      exact ⟨⟨⟨⟨fun F hF => hlen F hF, fun i hi => hdeg (i + 1) (by omega) (by omega)⟩,
        h3⟩, h4⟩, h5⟩
  · intro s
    simp only [PlanarFast.sizefinal, Bool.and_eq_true, List.all_eq_true, beq_iff_eq,
      decide_eq_true_eq]
    constructor
    · rintro ⟨⟨⟨hlen, h3⟩, h4⟩, h5⟩
      exact ⟨fun F hF => hlen F hF, h3, h4, h5⟩
    · rintro ⟨hlen, h3, h4, h5⟩
      exact ⟨⟨⟨fun F hF => hlen F hF, h3⟩, h4⟩, h5⟩

/-- C1 witness: the amended characterization applied to the concrete
non-cubic state. -/
theorem c1_witness : PlanarFast.sizefinal nonCubicFinal = true :=
  (c1_theorem.2 nonCubicFinal).mpr (by decide)

/-- C3 counterexample: the two closed faces of the seed (face indices 0 and
1, the ones not listed in openfaces) have lengths 3 and 6 - a triangle and a
hexagon - not 3 and 2 as the claim states; the length-2 face of the seed is
open. -/
theorem c3_cex :
    ((List.range GraphState.init.faces.length).filter
      (fun i => !(GraphState.init.openfaces.contains i))).map
        (fun i => (GraphState.init.faces.getD i []).length) = [3, 6] := by decide

/-- C3 (amended): the seed has exactly 7 vertices, 8 edges and 7 faces, of
which exactly 5 are open and exactly 2 closed; the closed faces are the
triangle (face 0, length 3) and a hexagon (face 1, length 6). -/
theorem c3_theorem :
    GraphState.init.numverts = 7 ∧
    GraphState.init.edges.length = 8 ∧
    GraphState.init.faces.length = 7 ∧
    GraphState.init.openfaces.length = 5 ∧
    GraphState.init.openfaces.all (fun o => o < GraphState.init.faces.length) = true ∧
    ((List.range GraphState.init.faces.length).filter
      (fun i => !(GraphState.init.openfaces.contains i))) = [0, 1] ∧
    (GraphState.init.faces.getD 0 []).length = 3 ∧
    (GraphState.init.faces.getD 1 []).length = 6 := by decide

/-- Modelled from the spec: the canonical-labeling oracle (nauty's
sparsenauty, external to this repository) returns for a submitted graph a
canonical encoding together with an error status, reported in
stats.errstatus; a nonzero errstatus is an internal oracle error. -/
structure OracleResult where
  errstatus : Int
  encoding : List Nat
deriving DecidableEq, Repr

/-- The oracle-error handling of GraphState::canongraph (src/planar.cc lines
682-683): a diagnostic warning is printed iff errstatus is nonzero; the
function then proceeds normally in either case. -/
def canonWarned (r : OracleResult) : Bool := r.errstatus != 0

/-- The recording step of src/planar.cc main (lines 771-780) for a completed
candidate that passed sizefinal: the canonical encoding is inserted into the
canonslns registry if not already present, and nsuccess is incremented
exactly on fresh insertion.  Returns (registry, tally, warning emitted,
search aborted); the last component is constantly false because the driver
always proceeds to backtracking, never aborting. -/
def recordSolution (canonslns : List (List Nat)) (nsuccess : Nat) (r : OracleResult) :
    List (List Nat) × Nat × Bool × Bool :=
  if canonslns.contains r.encoding then (canonslns, nsuccess, canonWarned r, false)
  else (canonslns ++ [r.encoding], nsuccess + 1, canonWarned r, false)

/-- C4 counterexample: with an oracle error status of 1 and a fresh
encoding, the encoding is still recorded in the registry and the success
tally is still incremented (the claim says neither happens). -/
theorem c4_cex :
    recordSolution [] 0 ⟨1, [9]⟩ = ([[9]], 1, true, false) := by decide

/-- C4 (amended): on an oracle internal error a non-fatal warning is emitted
and the search continues without aborting, but the candidate is processed
normally: its canonical encoding is inserted into the registry if new, and
the success tally is incremented exactly in that case. -/
theorem c4_theorem (canonslns : List (List Nat)) (nsuccess : Nat) (r : OracleResult)
    (herr : r.errstatus ≠ 0) :
    (recordSolution canonslns nsuccess r).2.2.1 = true ∧
    (recordSolution canonslns nsuccess r).2.2.2 = false ∧
    (recordSolution canonslns nsuccess r).1 =
      (if canonslns.contains r.encoding then canonslns else canonslns ++ [r.encoding]) ∧
    (recordSolution canonslns nsuccess r).2.1 =
      (if canonslns.contains r.encoding then nsuccess else nsuccess + 1) := by
  have hw : canonWarned r = true := by
    simp only [canonWarned, bne_iff_ne, ne_eq]
    exact herr
  unfold recordSolution
  split <;> simp [hw]

/-- C4 witness: the amended statement applied at a concrete error outcome. -/
theorem c4_witness :
    (recordSolution [] 0 ⟨1, [9]⟩).2.2.1 = true ∧
    (recordSolution [] 0 ⟨1, [9]⟩).2.2.2 = false ∧
    (recordSolution [] 0 ⟨1, [9]⟩).1 = [[9]] ∧
    (recordSolution [] 0 ⟨1, [9]⟩).2.1 = 1 := by
  have h := c4_theorem [] 0 ⟨1, [9]⟩ (by decide)
  simpa using h

/-- A state one legal move away from the seed: move 5 applied at the
chosen position 0 (the driver reaches it after backtracking out of the
subtree of move 2, the first legal move there). -/
def c5stateA : GraphState := addEdges GraphState.init 0 5

/-- The state after the next move: chooseFace picks position 1, where move
1 is legal, and addEdges applies it.  When the driver reaches this state its
stack holds 2 entries. -/
def c5stateB : GraphState :=
  addEdges (chooseFace c5stateA) (chooseFace c5stateA).chosenFace 1

/-- C5 counterexample: two moves into the src/planar.cc search (stack depth
2, bound MAX_FACES = 14) the move application leaves a non-empty open
boundary, the stack depth 2 does not exceed 14 - 4, more than one open face
remains, and sizecheck passes - yet the driver backtracks, because the extra
pop heuristic of src/planar.cc (absent from the claim's three conditions)
fires on this state. -/
theorem c5_cex :
    isValid GraphState.init 0 5 = true ∧
    isValid (chooseFace c5stateA) (chooseFace c5stateA).chosenFace 1 = true ∧
    extraRule c5stateB = true ∧
    c5stateB.openfaces ≠ [] ∧
    ¬ (14 - 4 < 2) ∧
    c5stateB.openfaces.length ≠ 1 ∧
    sizecheck c5stateB = true := by decide

/-- C5 (amended): for src/planar-fast.cc the claimed equivalence holds
exactly: after a move that leaves the open boundary non-empty the driver
backtracks iff the stack depth exceeds MAX_FACES - 4, or exactly one open
face remains, or sizecheck fails.  For src/planar.cc the backtracking
decision is the same three-way test preceded by the extra pop heuristic, so
it backtracks iff the extra rule fires or one of the three claimed
conditions holds. -/
theorem c5_theorem :
    (∀ (maxFaces stackSize : Nat) (G : GraphState), G.openfaces ≠ [] →
      (postMove maxFaces stackSize G = true ↔
        (maxFaces - 4 < stackSize ∨ G.openfaces.length = 1 ∨ sizecheck G = false))) ∧
    (∀ (maxFaces stackSize : Nat) (G : GraphState), G.openfaces ≠ [] →
      ((extraRule G || postMove maxFaces stackSize G) = true ↔
        (extraRule G = true ∨ maxFaces - 4 < stackSize ∨ G.openfaces.length = 1 ∨
          sizecheck G = false))) := by
  have hpost : ∀ (maxFaces stackSize : Nat) (G : GraphState),
      postMove maxFaces stackSize G = true ↔
        (maxFaces - 4 < stackSize ∨ G.openfaces.length = 1 ∨ sizecheck G = false) := by
    intro maxFaces stackSize G
    by_cases h1 : maxFaces - 4 < stackSize
    · simp [postMove, h1]
    · by_cases h2 : G.openfaces.length = 1
      · simp [postMove, h1, h2]
      · by_cases h3 : sizecheck G = true
        · simp [postMove, h1, h2, h3]
        · simp only [Bool.not_eq_true] at h3
          simp [postMove, h1, h2, h3]
  exact ⟨fun mf ss G _ => hpost mf ss G,
    fun mf ss G _ => by
      rw [Bool.or_eq_true, hpost mf ss G]⟩

/-- C5 witness: both directions applied at concrete inputs - the seed with a
deep stack backtracks via the depth condition, and the reached state
c5stateB backtracks in src/planar.cc via the extra rule. -/
theorem c5_witness :
    postMove 12 20 GraphState.init = true ∧
    (extraRule c5stateB || postMove 14 2 c5stateB) = true :=
  ⟨(c5_theorem.1 12 20 GraphState.init (by decide)).mpr (Or.inl (by decide)),
   (c5_theorem.2 14 2 c5stateB (by decide)).mpr (Or.inl (by decide))⟩

/-- The invariant-carrying specification of the chooseFace scan: starting
from a candidate cf that is maximal among positions below i and strictly
beats every position below itself, the scan returns a position that is
maximal among all positions and strictly beats every earlier position. -/
theorem chooseFaceGo_spec (s : GraphState) :
    ∀ (fuel cf i : Nat), cf < i → i ≤ s.openfaces.length →
      s.openfaces.length ≤ fuel + i →
      (∀ j, j < i → (faceOf s j).length ≤ (faceOf s cf).length) →
      (∀ j, j < cf → (faceOf s j).length < (faceOf s cf).length) →
      chooseFaceGo s fuel cf i < s.openfaces.length ∧
      (∀ j, j < s.openfaces.length →
        (faceOf s j).length ≤ (faceOf s (chooseFaceGo s fuel cf i)).length) ∧
      (∀ j, j < chooseFaceGo s fuel cf i →
        (faceOf s j).length < (faceOf s (chooseFaceGo s fuel cf i)).length) := by
  intro fuel
  induction fuel with
  | zero =>
    intro cf i hcf hin hlen hmax hstrict
    have hi : i = s.openfaces.length := by omega
    subst hi
    simp only [chooseFaceGo]
    exact ⟨by omega, hmax, hstrict⟩
  | succ fuel ih =>
    intro cf i hcf hin hlen hmax hstrict
    rw [chooseFaceGo]
    by_cases hlt : i < s.openfaces.length
    · simp only [hlt, if_true]
      by_cases hgt : (faceOf s i).length > (faceOf s cf).length
      · simp only [hgt, if_true]
        refine ih i (i + 1) (by omega) (by omega) (by omega) ?_ ?_
        · intro j hj
          rcases Nat.lt_or_ge j i with hj2 | hj2
          · exact le_of_lt (lt_of_le_of_lt (hmax j hj2) hgt)
          · have : j = i := by omega
            subst this; exact le_refl _
        · intro j hj
          exact lt_of_le_of_lt (hmax j hj) hgt
      · simp only [hgt, if_false]
        refine ih cf (i + 1) (by omega) (by omega) (by omega) ?_ hstrict
        intro j hj
        rcases Nat.lt_or_ge j i with hj2 | hj2
        · exact hmax j hj2
        · have : j = i := by omega
          subst this
          omega
    · simp only [hlt, if_false]
      have hi : i = s.openfaces.length := by omega
      subst hi
      exact ⟨by omega, hmax, hstrict⟩

/-- C6: for every state with a non-empty open boundary, chooseFace sets
chosenFace to a position of an open face of maximum current boundary
length, strictly longer than every face at a lower position (so the lowest
index wins ties), resets the move cursor medgadd to 0, and changes nothing
else in the state. -/
theorem c6_theorem (s : GraphState) (h : s.openfaces ≠ []) :
    (chooseFace s).chosenFace < s.openfaces.length ∧
    (∀ j, j < s.openfaces.length →
      (faceOf s j).length ≤ (faceOf s (chooseFace s).chosenFace).length) ∧
    (∀ j, j < (chooseFace s).chosenFace →
      (faceOf s j).length < (faceOf s (chooseFace s).chosenFace).length) ∧
    (chooseFace s).medgadd = 0 ∧
    (chooseFace s).numverts = s.numverts ∧
    (chooseFace s).edges = s.edges ∧
    (chooseFace s).faces = s.faces ∧
    (chooseFace s).openfaces = s.openfaces := by
  have hne : 0 < s.openfaces.length := List.length_pos.mpr h
  have hgo := chooseFaceGo_spec s s.openfaces.length 0 1 (by omega) (by omega) (by omega)
    (fun j hj => by
      have : j = 0 := by omega
      subst this; exact le_refl _)
    (fun j hj => by omega)
  exact ⟨hgo.1, hgo.2.1, hgo.2.2, rfl, rfl, rfl, rfl, rfl⟩

/-- C6 witness: chooseFace on the seed picks an in-range position and
resets the cursor. -/
theorem c6_witness :
    (chooseFace GraphState.init).chosenFace < GraphState.init.openfaces.length ∧
    (chooseFace GraphState.init).medgadd = 0 :=
  ⟨(c6_theorem GraphState.init (by decide)).1,
   (c6_theorem GraphState.init (by decide)).2.2.2.1⟩

@[simp] theorem upd_medgadd_chosenFace (s : GraphState) (k : Nat) :
    ({ s with medgadd := k } : GraphState).chosenFace = s.chosenFace := rfl

@[simp] theorem upd_medgadd_medgadd (s : GraphState) (k : Nat) :
    ({ s with medgadd := k } : GraphState).medgadd = k := rfl

/-- isValid reads neither the medgadd field nor the chosenFace field, so
updating medgadd does not change it. -/
@[simp] theorem isValid_medgadd (s : GraphState) (k f m : Nat) :
    isValid { s with medgadd := k } f m = isValid s f m := rfl

/-- No move id above NUM_METH = 10 is ever legal: the switch falls through
to the default. -/
theorem isValid_gt_ten (s : GraphState) (f k : Nat) :
    isValid s f (k + 11) = false := rfl

/-- The invariant-carrying specification of the incMethod loop. -/
theorem incMethodGo_spec :
    ∀ (fuel : Nat) (s : GraphState), 11 ≤ fuel + s.medgadd →
      (incMethodGo fuel s).2 = { s with medgadd := (incMethodGo fuel s).2.medgadd } ∧
      s.medgadd ≤ (incMethodGo fuel s).2.medgadd ∧
      ((incMethodGo fuel s).1 = true →
        (incMethodGo fuel s).2.medgadd ≤ 10 ∧
        s.medgadd < (incMethodGo fuel s).2.medgadd ∧
        isValid s s.chosenFace (incMethodGo fuel s).2.medgadd = true ∧
        (∀ j, s.medgadd < j → j < (incMethodGo fuel s).2.medgadd →
          isValid s s.chosenFace j = false)) ∧
      ((incMethodGo fuel s).1 = false →
        (∀ j, s.medgadd < j → j ≤ 10 → isValid s s.chosenFace j = false)) := by
  intro fuel
  induction fuel with
  | zero =>
    intro s hfuel
    have hres : incMethodGo 0 s = (false, s) := rfl
    rw [hres]
    refine ⟨rfl, le_refl _, fun h => Bool.noConfusion h, fun _ j hj1 hj2 => ?_⟩
    omega
  | succ fuel ih =>
    intro s hfuel
    by_cases hm : s.medgadd ≤ 10
    · by_cases hv : isValid s s.chosenFace (s.medgadd + 1) = true
      · have hres : incMethodGo (fuel + 1) s = (true, { s with medgadd := s.medgadd + 1 }) := by
          simp only [incMethodGo]
          rw [if_pos hm]
          simp only [upd_medgadd_chosenFace, upd_medgadd_medgadd, isValid_medgadd]
          rw [if_pos hv]
        rw [hres]
        have h10 : s.medgadd + 1 ≤ 10 := by
          rcases Nat.lt_or_ge s.medgadd 10 with h | h
          · omega
          · exfalso
            have huse : s.medgadd = 10 := by omega
            rw [huse] at hv
            have hfalse : isValid s s.chosenFace 11 = false :=
              isValid_gt_ten s s.chosenFace 0
            rw [hfalse] at hv
            exact Bool.noConfusion hv
        refine ⟨rfl, ?_, fun _ => ⟨?_, ?_, ?_, fun j h1 h2 => ?_⟩, fun hf => Bool.noConfusion hf⟩
        · show s.medgadd ≤ s.medgadd + 1
          omega
        · show s.medgadd + 1 ≤ 10
          exact h10
        · show s.medgadd < s.medgadd + 1
          omega
        · show isValid s s.chosenFace (s.medgadd + 1) = true
          exact hv
        · have h2a : j < s.medgadd + 1 := h2
          omega
      · have hres : incMethodGo (fuel + 1) s
            = incMethodGo fuel { s with medgadd := s.medgadd + 1 } := by
          simp only [incMethodGo]
          rw [if_pos hm]
          simp only [upd_medgadd_chosenFace, upd_medgadd_medgadd, isValid_medgadd]
          rw [if_neg hv]
        rw [hres]
        have hvf : isValid s s.chosenFace (s.medgadd + 1) = false := by
          simpa only [Bool.not_eq_true] using hv
        have hih := ih { s with medgadd := s.medgadd + 1 }
          (by simp only [upd_medgadd_medgadd]; omega)
        simp only [upd_medgadd_chosenFace, upd_medgadd_medgadd, isValid_medgadd] at hih
        obtain ⟨hih1, hih2, hih3, hih4⟩ := hih
        refine ⟨hih1, by omega, fun ht => ?_, fun hf => ?_⟩
        · obtain ⟨ha, hb, hc, hd⟩ := hih3 ht
          refine ⟨ha, by omega, hc, fun j h1 h2 => ?_⟩
          rcases Nat.lt_or_ge (s.medgadd + 1) j with hj | hj
          · exact hd j hj h2
          · have hje : j = s.medgadd + 1 := by omega
            rw [hje]
            exact hvf
        · intro j h1 h2
          rcases Nat.lt_or_ge (s.medgadd + 1) j with hj | hj
          · exact hih4 hf j hj h2
          · have hje : j = s.medgadd + 1 := by omega
            rw [hje]
            exact hvf
    · have hres : incMethodGo (fuel + 1) s = (false, s) := by
        simp only [incMethodGo]
        rw [if_neg hm]
      rw [hres]
      refine ⟨rfl, le_refl _, fun h => Bool.noConfusion h, fun _ j h1 h2 => ?_⟩
      omega

/-- C7: incMethod scans move ids in ascending order starting one above the
stored medgadd; on success it leaves medgadd at the first legal id in the
scanned range (every id strictly between the old and the new cursor is
illegal, the new one is legal and at most 10) and changes nothing else; on
failure every remaining id up to 10 is illegal. -/
theorem c7_theorem (s : GraphState) :
    (incMethod s).2 = { s with medgadd := (incMethod s).2.medgadd } ∧
    s.medgadd ≤ (incMethod s).2.medgadd ∧
    ((incMethod s).1 = true →
      (incMethod s).2.medgadd ≤ 10 ∧
      s.medgadd < (incMethod s).2.medgadd ∧
      isValid s s.chosenFace (incMethod s).2.medgadd = true ∧
      (∀ j, s.medgadd < j → j < (incMethod s).2.medgadd →
        isValid s s.chosenFace j = false)) ∧
    ((incMethod s).1 = false →
      (∀ j, s.medgadd < j → j ≤ 10 → isValid s s.chosenFace j = false)) :=
  incMethodGo_spec 11 s (by omega)

/-- C7 witness: on the seed, incMethod stops at id 2, the first legal id
(id 1 is illegal there). -/
theorem c7_witness :
    isValid GraphState.init GraphState.init.chosenFace
      ((incMethod GraphState.init).2.medgadd) = true ∧
    isValid GraphState.init GraphState.init.chosenFace 1 = false :=
  ⟨((c7_theorem GraphState.init).2.2.1 (by decide)).2.2.1,
   ((c7_theorem GraphState.init).2.2.1 (by decide)).2.2.2 1 (by decide) (by decide)⟩

/-- C8: the embedded search is a pure function of the oracle, the face
bound and the fuel: two evaluations of a whole run with the same
configuration and the same seed give equal results, componentwise - equal
per-hexagon-count tallies and equal dedup registry contents for
src/planar-fast.cc, and equal total count and registry for src/planar.cc;
moreover any two runs whose configurations are equal give equal results. -/
theorem c8_theorem :
    (∀ (canon : GraphState → List Nat) (maxFaces fuel : Nat),
      PlanarFast.run canon maxFaces fuel [] GraphState.init false
          (PlanarFast.RunResult.start maxFaces)
        = PlanarFast.run canon maxFaces fuel [] GraphState.init false
          (PlanarFast.RunResult.start maxFaces)) ∧
    (∀ (canon : GraphState → List Nat) (maxFaces fuel : Nat),
      Planar.run canon maxFaces fuel [] GraphState.init false Planar.RunResult.start
        = Planar.run canon maxFaces fuel [] GraphState.init false Planar.RunResult.start) ∧
    (∀ (canon₁ canon₂ : GraphState → List Nat) (m₁ m₂ f₁ f₂ : Nat),
      canon₁ = canon₂ → m₁ = m₂ → f₁ = f₂ →
      PlanarFast.run canon₁ m₁ f₁ [] GraphState.init false (PlanarFast.RunResult.start m₁)
        = PlanarFast.run canon₂ m₂ f₂ [] GraphState.init false
            (PlanarFast.RunResult.start m₂) ∧
      Planar.run canon₁ m₁ f₁ [] GraphState.init false Planar.RunResult.start
        = Planar.run canon₂ m₂ f₂ [] GraphState.init false Planar.RunResult.start) := by
  refine ⟨fun _ _ _ => rfl, fun _ _ _ => rfl, ?_⟩
  intro c1 c2 m1 m2 f1 f2 hc hm hf
  subst hc; subst hm; subst hf
  exact ⟨rfl, rfl⟩

/-- C8 witness: the configuration-equality form applied at a concrete
configuration. -/
theorem c8_witness :
    PlanarFast.run (fun _ => []) 12 5 [] GraphState.init false (PlanarFast.RunResult.start 12)
      = PlanarFast.run (fun _ => []) 12 5 [] GraphState.init false
          (PlanarFast.RunResult.start 12) :=
  (c8_theorem.2.2 (fun _ => []) (fun _ => []) 12 12 5 5 rfl rfl rfl).1

end PlanarBuild
